import Mathlib

/-!  Shallow embedding of the session/authentication subsystem of the
`school_registry_api` repository (TypeScript: `src/services/authService.ts`,
`src/controllers/authController.ts`, `src/utils/databaseUtils.ts`,
`AuthMiddleware`), together with theorems about its behaviour.

Modelling conventions:
* Redis (`ioredis`) is modelled as an association list of entries with an
  optional TTL; `SETEX` writes carry `some ttl`, and `GET`/`DEL`/`SETEX`
  are the atomic store primitives.
* JavaScript values that cross the number/string boundary (the JWT payload
  `userId` versus the string returned by `redis.get`) are modelled by an
  explicit sum `JsVal`, and `===`/`!==` by `jsStrictEq`, which never coerces.
* `jwt.verify`, `userService` lookups and token minting are abstracted as
  environment functions, since their outputs are opaque to the session logic.
-/

namespace SchoolRegistry

/-- A JavaScript runtime value as it occurs in this code base: the JWT payload
field `userId` is a number for tokens minted by `generateTokens`, while
`ioredis` returns stored values as strings. -/
inductive JsVal where
  | num (n : Nat)
  | str (s : String)
deriving DecidableEq, Repr

/-- JavaScript strict equality `===` on the values above: strict comparison
never coerces, so a number is never strictly equal to a string. -/
def jsStrictEq : JsVal → JsVal → Bool
  | JsVal.num a, JsVal.num b => a == b
  | JsVal.str a, JsVal.str b => a == b
  | _, _ => false

/-- Template-literal interpolation of a value, as in `` `csrf_token:${userId}` ``. -/
def jsValText : JsVal → String
  | JsVal.num n => toString n
  | JsVal.str s => s

/-- The Redis key namespaces used by `AuthService`:
`refresh_token:<token>` and `csrf_token:<userId>`.  The two prefixes are
distinct constants, so the key space embeds as a sum type. -/
inductive RKey where
  | refresh (tok : String)
  | csrf (uid : String)
deriving DecidableEq, Repr

/-- Does the key match the pattern `refresh_token:*` (used by `redis.keys`)? -/
def isRefreshKey : RKey → Bool
  | RKey.refresh _ => true
  | RKey.csrf _ => false

/-- Is the key one of the session namespaces (`refresh_token:*` or `csrf_token:*`)?
Every key of this model is; the predicate is kept explicit because invariant I3
speaks about exactly these keys. -/
def isSessionKey : RKey → Bool
  | RKey.refresh _ => true
  | RKey.csrf _ => true

/-- One Redis entry.  `ttl = some t` records that the write attached an expiry
of `t` seconds (`SETEX`); `ttl = none` describes an entry written without an
expiry, which arbitrary store states may contain. -/
structure Entry where
  key : RKey
  value : String
  ttl : Option Nat
deriving DecidableEq, Repr

/-- The Redis store state. -/
abbrev Store := List Entry

/-- `redis.get key`. -/
def redisGet : Store → RKey → Option String
  | [], _ => none
  | e :: s, k => if e.key = k then some e.value else redisGet s k

/-- `redis.del key` (removes every entry under the key). -/
def redisDel : Store → RKey → Store
  | [], _ => []
  | e :: s, k => if e.key = k then redisDel s k else e :: redisDel s k

/-- `redis.setex key ttl value`: overwrites the key and attaches a TTL. -/
def redisSetex (s : Store) (k : RKey) (ttl : Nat) (v : String) : Store :=
  ⟨k, v, some ttl⟩ :: redisDel s k

/-- The configuration surface read by the `AuthService` constructor, with the
defaults from `authService.ts` lines 25-39. -/
structure AuthConfig where
  JWT_EXPIRES_IN : Nat := 900
  JWT_REFRESH_EXPIRES_IN : Nat := 604800
  REFRESH_TOKEN_REDIS_TTL : Nat := 604800
  CSRF_TOKEN_TTL : Nat := 86400
  NODE_ENV : String := "development"
deriving DecidableEq, Repr

/-- The default configuration (no environment overrides). -/
def defaultConfig : AuthConfig := {}

/-- `AuthService.storeRefreshToken`: `setex "refresh_token:"++token ttl userId`.
`ioredis` serialises the numeric user id to its decimal string. -/
def storeRefreshToken (cfg : AuthConfig) (s : Store) (tok : String) (userId : Nat) : Store :=
  redisSetex s (RKey.refresh tok) cfg.REFRESH_TOKEN_REDIS_TTL (toString userId)

/-- `AuthService.getRefreshTokenUserId`: returns the stored value as a string. -/
def getRefreshTokenUserId (s : Store) (tok : String) : Option String :=
  redisGet s (RKey.refresh tok)

/-- `AuthService.deleteRefreshToken`. -/
def deleteRefreshToken (s : Store) (tok : String) : Store :=
  redisDel s (RKey.refresh tok)

/-- `AuthService.storeCSRFToken`: `setex "csrf_token:"++userId ttl token`. -/
def storeCSRFToken (cfg : AuthConfig) (s : Store) (tok : String) (userId : Nat) : Store :=
  redisSetex s (RKey.csrf (toString userId)) cfg.CSRF_TOKEN_TTL tok

/-- `AuthService.getCSRFToken` (keyed by the user id string). -/
def getCSRFToken (s : Store) (userId : String) : Option String :=
  redisGet s (RKey.csrf userId)

/-- `AuthService.deleteCSRFToken`. -/
def deleteCSRFToken (s : Store) (userId : String) : Store :=
  redisDel s (RKey.csrf userId)

/-- The collaborators and freshly minted values a single `refreshToken` call
depends on: `verifyR` is `jwt.verify(token, JWT_REFRESH_SECRET)` projected to
the payload field `userId` (`none` on signature/expiry failure),
`findUser` is `userService.getUserById` projected to the found user's `id`,
and the `new*` fields are the outputs of `generateTokens`/`generateCSRFToken`
for this call. -/
structure RefreshEnv where
  verifyR : String → Option JsVal
  findUser : JsVal → Option Nat
  newAccessToken : String
  newRefreshToken : String
  newCsrfToken : String

/-- The observable outcome of `AuthController.refreshToken`
(`databaseUtils.ts` lines 142-204). -/
inductive RefreshOutcome where
  /-- 401 `Refresh token required` (no cookie). -/
  | tokenRequired
  /-- 403 `Invalid refresh token` (no store entry). -/
  | invalidToken
  /-- 403 `Invalid or expired refresh token` (verify failure or mismatch). -/
  | invalidOrExpired
  /-- 403 `User not found`. -/
  | userNotFound
  /-- 200, with the fresh CSRF token in the body. -/
  | ok (csrfToken : String)
deriving DecidableEq, Repr

/-- An atomic Redis operation, for recording the order of store round-trips. -/
inductive StoreOp where
  | get (k : RKey)
  | del (k : RKey)
  | setex (k : RKey) (ttl : Nat) (v : String)
deriving DecidableEq, Repr

/-- Replay one recorded operation against a store. -/
def applyOp (s : Store) : StoreOp → Store
  | StoreOp.get _ => s
  | StoreOp.del k => redisDel s k
  | StoreOp.setex k t v => redisSetex s k t v

/-- Replay a trace of operations in order. -/
def applyOps (s : Store) (ops : List StoreOp) : Store :=
  ops.foldl applyOp s

/-- `AuthController.refreshToken` (`databaseUtils.ts` lines 142-204): returns
the HTTP outcome, the final store, and the ordered trace of store operations.
The comparison `decoded[userId] !== storedUserId` is JavaScript strict
inequality between the payload value and the string returned by `redis.get`,
embedded as `jsStrictEq` against `JsVal.str storedUserId`. -/
def refreshTokenImpl (cfg : AuthConfig) (env : RefreshEnv) (s : Store)
    (cookieRefreshToken : Option String) :
    RefreshOutcome × Store × List StoreOp :=
  match cookieRefreshToken with
  | none => (RefreshOutcome.tokenRequired, s, [])
  | some refreshToken =>
    let k := RKey.refresh refreshToken
    match redisGet s k with
    | none => (RefreshOutcome.invalidToken, s, [StoreOp.get k])
    | some storedUserId =>
      match env.verifyR refreshToken with
      | none =>
        (RefreshOutcome.invalidOrExpired, redisDel s k, [StoreOp.get k, StoreOp.del k])
      | some decodedUserId =>
        if jsStrictEq decodedUserId (JsVal.str storedUserId) then
          match env.findUser decodedUserId with
          | none =>
            (RefreshOutcome.userNotFound, redisDel s k, [StoreOp.get k, StoreOp.del k])
          | some uid =>
            let s1 := deleteRefreshToken s refreshToken
            let s2 := storeRefreshToken cfg s1 env.newRefreshToken uid
            let s3 := storeCSRFToken cfg s2 env.newCsrfToken uid
            (RefreshOutcome.ok env.newCsrfToken, s3,
             [StoreOp.get k, StoreOp.del k,
              StoreOp.setex (RKey.refresh env.newRefreshToken)
                cfg.REFRESH_TOKEN_REDIS_TTL (toString uid),
              StoreOp.setex (RKey.csrf (toString uid))
                cfg.CSRF_TOKEN_TTL env.newCsrfToken])
        else
          (RefreshOutcome.invalidOrExpired, redisDel s k, [StoreOp.get k, StoreOp.del k])

/-- A user row as the login path sees it (`getFullUserByEmail`). -/
structure UserRec where
  id : Nat
  passwordHash : String
deriving DecidableEq, Repr

/-- The collaborators of a single `login` call: `findByEmail` is
`userService.getFullUserByEmail`, `checkPw` is `bcrypt.compare` applied to the
submitted password and the stored hash, and the remaining fields are this
call's freshly minted tokens. -/
structure LoginEnv where
  findByEmail : String → Option UserRec
  checkPw : String → String → Bool
  newAccessToken : String
  newRefreshToken : String
  newCsrfToken : String

/-- The observable outcome of `AuthController.login`
(`controllers/authController.ts` lines 105-158). -/
inductive LoginOutcome where
  /-- 404, body `\x7bsuccess:false, message:"User could not be found"\x7d`. -/
  | notFound
  /-- 401, body `\x7berror:"Invalid credentials"\x7d`. -/
  | invalidCredentials
  /-- 200, with the fresh CSRF token in the body. -/
  | ok (csrfToken : String)
deriving DecidableEq, Repr

/-- The HTTP status code sent for each login outcome. -/
def loginStatus : LoginOutcome → Nat
  | LoginOutcome.notFound => 404
  | LoginOutcome.invalidCredentials => 401
  | LoginOutcome.ok _ => 200

/-- The human-readable body text sent for each login outcome. -/
def loginMessage : LoginOutcome → String
  | LoginOutcome.notFound => "User could not be found"
  | LoginOutcome.invalidCredentials => "Invalid credentials"
  | LoginOutcome.ok _ => "User logged in successfully"

/-- `AuthController.login` (`controllers/authController.ts` lines 105-158),
after schema validation: look the user up by email (absent gives 404), verify
the password (failure gives 401), then store the refresh and CSRF entries. -/
def loginImpl (cfg : AuthConfig) (env : LoginEnv) (s : Store)
    (email pw : String) : LoginOutcome × Store :=
  match env.findByEmail email with
  | none => (LoginOutcome.notFound, s)
  | some user =>
    if env.checkPw pw user.passwordHash then
      let s1 := storeRefreshToken cfg s env.newRefreshToken user.id
      let s2 := storeCSRFToken cfg s1 env.newCsrfToken user.id
      (LoginOutcome.ok env.newCsrfToken, s2)
    else
      (LoginOutcome.invalidCredentials, s)

/-- An HTTP response summary (status code and body message). -/
structure HttpRes where
  status : Nat
  message : String
deriving DecidableEq, Repr

/-- `AuthController.logout` (`controllers/authController.ts` lines 199-221):
if a refresh cookie is present and registered, delete its entry and the
subject's CSRF entry; in every case clear the cookies and answer 200. -/
def logoutImpl (s : Store) (cookieRefreshToken : Option String) :
    HttpRes × Store :=
  match cookieRefreshToken with
  | none => (⟨200, "User logged out successfully"⟩, s)
  | some t =>
    match getRefreshTokenUserId s t with
    | none => (⟨200, "User logged out successfully"⟩, s)
    | some storedUserId =>
      (⟨200, "User logged out successfully"⟩,
       deleteCSRFToken (deleteRefreshToken s t) storedUserId)

/-- `crypto.timingSafeEqual(Buffer.from(a), Buffer.from(b))`: when the two
byte lengths differ it throws `RangeError` instead of returning; for equal
lengths it returns byte equality, which on UTF-8 buffers is string equality. -/
def timingSafeEqual (a b : String) : Except String Bool :=
  if a.utf8ByteSize = b.utf8ByteSize then Except.ok (a == b)
  else Except.error "RangeError: Input buffers must have the same byte length"

/-- `AuthService.verifyCSRFToken` (`authService.ts` lines 121-126): a direct
call to `timingSafeEqual`, so it inherits the throw on length mismatch. -/
def verifyCSRFToken (token sessionToken : String) : Except String Bool :=
  timingSafeEqual token sessionToken

/-- The observable outcome of the CSRF protection middleware. -/
inductive CsrfOutcome where
  /-- safe verb: `next()` without any check. -/
  | skipped
  /-- 403 `CSRF token required`. -/
  | csrfRequired
  /-- 401 `Access token required for CSRF validation`. -/
  | accessRequired
  /-- 403 `Invalid access token`. -/
  | invalidAccess
  /-- 403 `Invalid CSRF token`. -/
  | invalidCsrf
  /-- 500 `Internal server error` (the catch block). -/
  | internalError
  /-- `next()` with the request admitted. -/
  | admitted
deriving DecidableEq, Repr

/-- The verbs the middleware skips CSRF validation for. -/
def safeMethods : List String := ["GET", "HEAD", "OPTIONS"]

/-- `AuthService.createCSRFProtectionMiddleware` (`authService.ts` lines
250-305): skip safe verbs, require the `X-CSRF-Token` header and an access
token (cookie first, then bearer header), decode it, load the stored CSRF
token for the decoded `userId`, and compare.  A `RangeError` thrown by
`timingSafeEqual` is caught by the surrounding catch block and surfaces as a
500 response. -/
def csrfProtectionImpl (verifyA : String → Option JsVal) (s : Store)
    (method : String) (csrfHeader : Option String)
    (cookieToken authHeaderToken : Option String) : CsrfOutcome :=
  if method ∈ safeMethods then CsrfOutcome.skipped
  else
    match csrfHeader with
    | none => CsrfOutcome.csrfRequired
    | some csrfToken =>
      match cookieToken.orElse (fun _ => authHeaderToken) with
      | none => CsrfOutcome.accessRequired
      | some t =>
        match verifyA t with
        | none => CsrfOutcome.invalidAccess
        | some decoded =>
          match getCSRFToken s (jsValText decoded) with
          | none => CsrfOutcome.invalidCsrf
          | some stored =>
            match verifyCSRFToken csrfToken stored with
            | Except.error _ => CsrfOutcome.internalError
            | Except.ok b => if b then CsrfOutcome.admitted else CsrfOutcome.invalidCsrf

/-- The options record `express` receives from `res.cookie`; its `maxAge`
field is measured in milliseconds. -/
structure CookieOptions where
  httpOnly : Bool
  secure : Bool
  sameSiteStrict : Bool
  maxAge : Nat
  path : String
deriving DecidableEq, Repr

/-- `AuthService.setSecureCookies` (`authService.ts` lines 173-195): the pair
of option records passed for the `accessToken` and `refreshToken` cookies.
The source passes `maxAge: this.JWT_EXPIRES_IN` and
`maxAge: this.JWT_REFRESH_EXPIRES_IN` verbatim. -/
def setSecureCookies (cfg : AuthConfig) : CookieOptions × CookieOptions :=
  (⟨true, cfg.NODE_ENV == "production", true, cfg.JWT_EXPIRES_IN, "/"⟩,
   ⟨true, cfg.NODE_ENV == "production", true, cfg.JWT_REFRESH_EXPIRES_IN, "/"⟩)

/-- The snapshot `redis.keys("refresh_token:*")` returns. -/
def matchingRefreshKeys (s : Store) : List RKey :=
  (s.filter (fun e => isRefreshKey e.key)).map (fun e => e.key)

/-- The loop body of `deleteAllUserRefreshTokens`: for each key of the
snapshot, read the live store and delete the key when its value strictly
equals the target user id (both sides are strings here). -/
def delLoop (uid : String) : List RKey → Store → Store
  | [], s => s
  | k :: ks, s =>
    if redisGet s k = some uid then delLoop uid ks (redisDel s k)
    else delLoop uid ks s

/-- `AuthService.deleteAllUserRefreshTokens` (`authService.ts` lines 160-170):
scan all `refresh_token:*` keys and delete those bound to `uid`. -/
def deleteAllUserRefreshTokens (s : Store) (uid : String) : Store :=
  delLoop uid (matchingRefreshKeys s) s

/-- The store effect of `AuthController.logoutAll` (`controllers/authController.ts`
lines 224-245): delete all of the subject's refresh entries, then its CSRF
entry (both called with `req.user.id.toString()`). -/
def logoutAllStore (s : Store) (userId : Nat) : Store :=
  deleteCSRFToken (deleteAllUserRefreshTokens s (toString userId)) (toString userId)

/-- One entry point that writes or deletes session entries, with the inputs it
needs; used to state that every operation preserves the TTL invariant. -/
inductive AuthAction where
  /-- `register`: `storeRefreshToken` and `storeCSRFToken` for the new user. -/
  | register (userId : Nat) (rtok ctok : String)
  /-- `login`. -/
  | login (env : LoginEnv) (email pw : String)
  /-- `refreshToken`. -/
  | refresh (env : RefreshEnv) (cookieTok : Option String)
  /-- the `csrf-token` endpoint (`getCSRFToken` controller). -/
  | issueCsrf (userId : Nat) (ctok : String)
  /-- `logout`. -/
  | logout (cookieTok : Option String)
  /-- `logoutAll`. -/
  | logoutAll (userId : Nat)

/-- The store effect of each entry point. -/
def applyAuthAction (cfg : AuthConfig) (s : Store) : AuthAction → Store
  | AuthAction.register userId rtok ctok =>
    storeCSRFToken cfg (storeRefreshToken cfg s rtok userId) ctok userId
  | AuthAction.login env email pw => (loginImpl cfg env s email pw).2
  | AuthAction.refresh env tok => (refreshTokenImpl cfg env s tok).2.1
  | AuthAction.issueCsrf userId ctok => storeCSRFToken cfg s ctok userId
  | AuthAction.logout tok => (logoutImpl s tok).2
  | AuthAction.logoutAll userId => logoutAllStore s userId

/-- Invariant I3 as a decidable predicate: every session entry present in the
store carries a TTL. -/
def ttlInvB (s : Store) : Bool :=
  s.all (fun e => !isSessionKey e.key || e.ttl.isSome)

/-! ### A small-step view of `refreshToken`, for interleaving two calls.

Node executes the code between two `await`ed store round-trips atomically, so
the atomic units of one `refreshToken` call are its Redis operations:
`get` (followed by the pure signature/ownership checks), then — on the failure
branches — one `del`, or — on the success branch — `del`, `setex` of the new
refresh entry, `setex` of the new CSRF entry.  Program counters:
0 = about to `get`; 1 = about to `del` then fail with `invalidOrExpired`;
2 = about to `del` then fail with `userNotFound`; 3 = about to `del` (rotation);
4 = about to `setex` the new refresh entry; 5 = about to `setex` the CSRF entry. -/
structure RCall where
  tok : String
  env : RefreshEnv
  pc : Nat
  uid : Nat
  out : Option RefreshOutcome

/-- The initial state of a `refreshToken` call presenting token `tok`. -/
def initCall (tok : String) (env : RefreshEnv) : RCall :=
  ⟨tok, env, 0, 0, none⟩

/-- Execute one atomic store round-trip of the call against the shared store. -/
def stepCall (cfg : AuthConfig) (c : RCall) (s : Store) : RCall × Store :=
  match c.out with
  | some _ => (c, s)
  | none =>
    match c.pc with
    | 0 =>
      match redisGet s (RKey.refresh c.tok) with
      | none => ({ c with out := some RefreshOutcome.invalidToken }, s)
      | some storedUserId =>
        match c.env.verifyR c.tok with
        | none => ({ c with pc := 1 }, s)
        | some decoded =>
          if jsStrictEq decoded (JsVal.str storedUserId) then
            match c.env.findUser decoded with
            | none => ({ c with pc := 2 }, s)
            | some uid => ({ c with pc := 3, uid := uid }, s)
          else ({ c with pc := 1 }, s)
    | 1 => ({ c with out := some RefreshOutcome.invalidOrExpired },
            redisDel s (RKey.refresh c.tok))
    | 2 => ({ c with out := some RefreshOutcome.userNotFound },
            redisDel s (RKey.refresh c.tok))
    | 3 => ({ c with pc := 4 }, redisDel s (RKey.refresh c.tok))
    | 4 => ({ c with pc := 5 }, storeRefreshToken cfg s c.env.newRefreshToken c.uid)
    | _ => ({ c with out := some (RefreshOutcome.ok c.env.newCsrfToken) },
            storeCSRFToken cfg s c.env.newCsrfToken c.uid)

/-- Run two concurrent calls under a schedule: `true` steps the first call,
`false` the second; both share the store. -/
def runSched (cfg : AuthConfig) : List Bool → RCall × RCall × Store → RCall × RCall × Store
  | [], st => st
  | b :: rest, (a, c, s) =>
    if b then
      let p := stepCall cfg a s
      runSched cfg rest (p.1, c, p.2)
    else
      let p := stepCall cfg c s
      runSched cfg rest (a, p.1, p.2)

/-! ### Concrete instances used to evaluate the code on explicit inputs. -/

/-- A refresh environment for a token minted by `generateTokens` for user 7:
the payload carries `userId` as the *number* 7, exactly as
`jwt.sign(\x7b userId \x7d, ...)` with a numeric `userId` produces. -/
def envNum : RefreshEnv :=
  ⟨fun t => if t == "tok0" then some (JsVal.num 7) else none,
   fun v => if v == JsVal.num 7 then some 7 else none,
   "acc1", "tok1", "csrf1"⟩

/-- The store right after a login of user 7 registered its refresh token:
`storeRefreshToken` wrote the entry `refresh_token:tok0 -> "7"`. -/
def storeLogin : Store := storeRefreshToken defaultConfig [] "tok0" 7

/-- A refresh environment whose token decodes to `userId` as the *string*
`"7"` (a payload only someone holding the refresh secret can craft); for such
a payload the strict comparison against the stored string succeeds, so this
environment reaches the rotation step. -/
def envStrA : RefreshEnv :=
  ⟨fun t => if t == "tok0" then some (JsVal.str "7") else none,
   fun v => if v == JsVal.str "7" then some 7 else none,
   "accA", "refA", "csrfA"⟩

/-- A second call's environment for the same token, minting different fresh
tokens. -/
def envStrB : RefreshEnv :=
  ⟨fun t => if t == "tok0" then some (JsVal.str "7") else none,
   fun v => if v == JsVal.str "7" then some 7 else none,
   "accB", "refB", "csrfB"⟩

/-- A login environment with no user registered under any email. -/
def loginEnvNoUser : LoginEnv :=
  ⟨fun _ => none, fun _ _ => false, "acc", "ref", "csrf"⟩

/-- A login environment where `a@b.com` exists but the password never
verifies against the stored hash. -/
def loginEnvWrongPw : LoginEnv :=
  ⟨fun e => if e == "a@b.com" then some ⟨1, "hash1"⟩ else none,
   fun _ _ => false, "acc", "ref", "csrf"⟩

/-- An access-token verifier that decodes the access token `"at"` to user 1. -/
def verifyAccessW : String → Option JsVal :=
  fun t => if t == "at" then some (JsVal.num 1) else none

/-- A store whose CSRF entry for user 1 is the two-byte token `"bb"`. -/
def storeCsrfBB : Store := [⟨RKey.csrf "1", "bb", some 86400⟩]

/-- Two concurrent `refreshToken` calls presenting the same registered token
`tok0`, under the schedule: call A reads, then call B reads (the entry is
still present — A has not yet deleted it), then A completes its rotation,
then B completes its rotation. -/
def race9 : RCall × RCall × Store :=
  runSched defaultConfig [true, false, true, true, true, false, false, false]
    (initCall "tok0" envStrA, initCall "tok0" envStrB, storeLogin)

/-- A demonstration store for the logout-all frame property: two sessions of
user 1, one session of user 2, and both CSRF entries. -/
def storeTwoUsers : Store :=
  [⟨RKey.refresh "r1a", "1", some 604800⟩,
   ⟨RKey.refresh "r2", "2", some 604800⟩,
   ⟨RKey.refresh "r1b", "1", some 604800⟩,
   ⟨RKey.csrf "1", "c1", some 86400⟩,
   ⟨RKey.csrf "2", "c2", some 86400⟩]

/-! ### Basic store lemmas -/

/-- Deleting a key removes it: a subsequent `get` misses. -/
theorem redisGet_redisDel_self (s : Store) (k : RKey) :
    redisGet (redisDel s k) k = none := by
  induction s with
  | nil => rfl
  | cons e t ih =>
    by_cases he : e.key = k
    · simpa [redisDel, he] using ih
    · simp [redisDel, he, redisGet, ih]

/-- Deleting any key preserves the absence of a key. -/
theorem redisGet_redisDel_none (s : Store) (k k1 : RKey)
    (h : redisGet s k = none) : redisGet (redisDel s k1) k = none := by
  induction s with
  | nil => rfl
  | cons e t ih =>
    by_cases he : e.key = k
    · simp [redisGet, he] at h
    · by_cases he1 : e.key = k1
      · rw [redisGet, if_neg he] at h
        simp [redisDel, he1, ih h]
      · rw [redisGet, if_neg he] at h
        simp [redisDel, he1, redisGet, he, ih h]

/-- Membership after a delete: the entry survives iff it was present under a
different key. -/
theorem mem_redisDel {e : Entry} {s : Store} {k : RKey} :
    e ∈ redisDel s k ↔ e ∈ s ∧ e.key ≠ k := by
  induction s with
  | nil => simp [redisDel]
  | cons a t ih =>
    by_cases ha : a.key = k
    · rw [redisDel, if_pos ha, ih]
      constructor
      · rintro ⟨h1, h2⟩
        exact ⟨List.mem_cons_of_mem _ h1, h2⟩
      · rintro ⟨h1, h2⟩
        rcases List.mem_cons.mp h1 with rfl | h3
        · exact absurd ha h2
        · exact ⟨h3, h2⟩
    · rw [redisDel, if_neg ha]
      constructor
      · intro h1
        rcases List.mem_cons.mp h1 with rfl | h3
        · exact ⟨List.mem_cons_self _ _, ha⟩
        · rcases ih.mp h3 with ⟨h4, h5⟩
          exact ⟨List.mem_cons_of_mem _ h4, h5⟩
      · rintro ⟨h1, h2⟩
        rcases List.mem_cons.mp h1 with rfl | h3
        · exact List.mem_cons_self _ _
        · exact List.mem_cons_of_mem _ (ih.mpr ⟨h3, h2⟩)

/-! ### TTL invariant lemmas -/

/-- The Boolean invariant, characterised element-wise. -/
theorem ttlInvB_iff (s : Store) :
    ttlInvB s = true ↔
      ∀ e ∈ s, isSessionKey e.key = true → e.ttl.isSome = true := by
  rw [ttlInvB, List.all_eq_true]
  constructor
  · intro h e he hk
    have h1 := h e he
    rwa [hk, Bool.not_true, Bool.false_or] at h1
  · intro h e he
    cases hk : isSessionKey e.key
    · simp
    · simp [h e he hk]

/-- `del` preserves the TTL invariant. -/
theorem ttlInvB_redisDel {s : Store} (k : RKey) (h : ttlInvB s = true) :
    ttlInvB (redisDel s k) = true := by
  rw [ttlInvB_iff] at h ⊢
  intro e he hk
  exact h e (mem_redisDel.mp he).1 hk

/-- `setex` preserves the TTL invariant (it always attaches a TTL). -/
theorem ttlInvB_redisSetex {s : Store} (k : RKey) (t : Nat) (v : String)
    (h : ttlInvB s = true) : ttlInvB (redisSetex s k t v) = true := by
  rw [ttlInvB_iff] at h ⊢
  intro e he hk
  rcases List.mem_cons.mp he with rfl | h1
  · rfl
  · exact h e (mem_redisDel.mp h1).1 hk

/-- `storeRefreshToken` preserves the TTL invariant. -/
theorem ttlInvB_storeRefreshToken {s : Store} (cfg : AuthConfig)
    (tok : String) (userId : Nat) (h : ttlInvB s = true) :
    ttlInvB (storeRefreshToken cfg s tok userId) = true :=
  ttlInvB_redisSetex _ _ _ h

/-- `storeCSRFToken` preserves the TTL invariant. -/
theorem ttlInvB_storeCSRFToken {s : Store} (cfg : AuthConfig)
    (tok : String) (userId : Nat) (h : ttlInvB s = true) :
    ttlInvB (storeCSRFToken cfg s tok userId) = true :=
  ttlInvB_redisSetex _ _ _ h

/-- The scan loop of `deleteAllUserRefreshTokens` preserves the TTL invariant. -/
theorem ttlInvB_delLoop {uid : String} {ks : List RKey} {s : Store}
    (h : ttlInvB s = true) : ttlInvB (delLoop uid ks s) = true := by
  induction ks generalizing s with
  | nil => exact h
  | cons k ks ih =>
    rw [delLoop]
    by_cases hg : redisGet s k = some uid
    · rw [if_pos hg]
      exact ih (ttlInvB_redisDel _ h)
    · rw [if_neg hg]
      exact ih h

/-! ### Lemmas about the logout-all scan -/

/-- Well-formedness of a Redis state: one entry per key (Redis is a map). -/
def keysNodup (s : Store) : Prop :=
  (s.map (fun e => e.key)).Nodup

/-- In a well-formed store, `get` on a present entry's key returns its value. -/
theorem redisGet_of_mem_nodup {s : Store} {e : Entry}
    (hnd : keysNodup s) (he : e ∈ s) : redisGet s e.key = some e.value := by
  induction s with
  | nil => cases he
  | cons a t ih =>
    rw [keysNodup, List.map_cons, List.nodup_cons] at hnd
    rcases List.mem_cons.mp he with rfl | h1
    · simp [redisGet]
    · have hne : a.key ≠ e.key := by
        intro hk
        exact hnd.1 (hk ▸ List.mem_map_of_mem _ h1)
      rw [redisGet, if_neg hne]
      exact ih hnd.2 h1

/-- Deletion keeps the store well-formed. -/
theorem keysNodup_redisDel {s : Store} (k : RKey) (hnd : keysNodup s) :
    keysNodup (redisDel s k) := by
  induction s with
  | nil => exact hnd
  | cons a t ih =>
    rw [keysNodup, List.map_cons, List.nodup_cons] at hnd
    by_cases ha : a.key = k
    · rw [redisDel, if_pos ha]
      exact ih hnd.2
    · rw [redisDel, if_neg ha]
      rw [keysNodup, List.map_cons, List.nodup_cons]
      refine ⟨fun hmem => ?_, ih hnd.2⟩
      rcases List.mem_map.mp hmem with ⟨e1, he1, hk1⟩
      exact hnd.1 (hk1 ▸ List.mem_map_of_mem _ (mem_redisDel.mp he1).1)

/-- The scan loop only ever removes entries. -/
theorem mem_of_mem_delLoop {uid : String} {ks : List RKey} {s : Store} {e : Entry}
    (he : e ∈ delLoop uid ks s) : e ∈ s := by
  induction ks generalizing s with
  | nil => exact he
  | cons k ks ih =>
    rw [delLoop] at he
    by_cases hg : redisGet s k = some uid
    · rw [if_pos hg] at he
      exact (mem_redisDel.mp (ih he)).1
    · rw [if_neg hg] at he
      exact ih he

/-- An entry whose key the scan never visits survives the loop. -/
theorem mem_delLoop_of_key_notin {uid : String} {ks : List RKey} {s : Store}
    {e : Entry} (he : e ∈ s) (hk : e.key ∉ ks) : e ∈ delLoop uid ks s := by
  induction ks generalizing s with
  | nil => exact he
  | cons k ks ih =>
    have hk1 : e.key ≠ k := fun h => hk (h ▸ List.mem_cons_self _ _)
    have hk2 : e.key ∉ ks := fun h => hk (List.mem_cons_of_mem _ h)
    rw [delLoop]
    by_cases hg : redisGet s k = some uid
    · rw [if_pos hg]
      exact ih (mem_redisDel.mpr ⟨he, hk1⟩) hk2
    · rw [if_neg hg]
      exact ih he hk2

/-- In a well-formed store, an entry bound to a different user id survives the
scan loop (only entries whose value is the target id are deleted). -/
theorem mem_delLoop_of_value_ne {uid : String} {ks : List RKey} {s : Store}
    {e : Entry} (hnd : keysNodup s) (he : e ∈ s) (hv : e.value ≠ uid) :
    e ∈ delLoop uid ks s := by
  induction ks generalizing s with
  | nil => exact he
  | cons k ks ih =>
    rw [delLoop]
    by_cases hg : redisGet s k = some uid
    · rw [if_pos hg]
      have hk1 : e.key ≠ k := by
        intro hk
        have h1 := redisGet_of_mem_nodup hnd he
        rw [hk, hg] at h1
        exact hv (Option.some.inj h1).symm
      exact ih (keysNodup_redisDel _ hnd) (mem_redisDel.mpr ⟨he, hk1⟩)
    · rw [if_neg hg]
      exact ih hnd he

/-- In a well-formed store, no entry bound to the target user id under a
visited key survives the scan loop. -/
theorem not_mem_delLoop_deleted {uid : String} {ks : List RKey} {s : Store}
    {e : Entry} (hnd : keysNodup s) (he : e ∈ delLoop uid ks s)
    (hv : e.value = uid) (hk : e.key ∈ ks) : False := by
  induction ks generalizing s with
  | nil => cases hk
  | cons k ks ih =>
    rw [delLoop] at he
    by_cases hg : redisGet s k = some uid
    · rw [if_pos hg] at he
      rcases List.mem_cons.mp hk with hek | hk1
      · exact (mem_redisDel.mp (mem_of_mem_delLoop he)).2 hek
      · exact ih (keysNodup_redisDel _ hnd) he hk1
    · rw [if_neg hg] at he
      rcases List.mem_cons.mp hk with hek | hk1
      · have h1 := redisGet_of_mem_nodup hnd (mem_of_mem_delLoop he)
        rw [hek, hv] at h1
        exact hg h1
      · exact ih hnd he hk1

/-- Every key the `refresh_token:*` scan returns is a refresh key. -/
theorem isRefreshKey_of_mem_matching {s : Store} {k : RKey}
    (h : k ∈ matchingRefreshKeys s) : isRefreshKey k = true := by
  rcases List.mem_map.mp h with ⟨e, he, rfl⟩
  exact (List.mem_filter.mp he).2

/-- A refresh entry of the store has its key in the scan snapshot. -/
theorem mem_matching_of_refresh {s : Store} {e : Entry} (he : e ∈ s)
    (hk : isRefreshKey e.key = true) : e.key ∈ matchingRefreshKeys s :=
  List.mem_map_of_mem _ (List.mem_filter.mpr ⟨he, hk⟩)

/-! ### Claim theorems -/

/-- C1: the claim asserts that a refresh token registered at login (store
value is the decimal string of the subject id), whose signature verifies and
decodes to the same subject as a number, and whose principal exists, makes
`refreshToken` succeed.  On the code this is false: the strict comparison
`decoded[userId] !== storedUserId` compares the numeric payload value with the
string returned by Redis, never coerces, and therefore always takes the
mismatch branch — the call answers 403 `Invalid or expired refresh token` and
defensively deletes the (perfectly legitimate) store entry.  Evaluated here at
the concrete failing input: token `tok0` of user 7. -/
theorem C1_refresh_rejects_registered_token :
    getRefreshTokenUserId storeLogin "tok0" = some "7" ∧
    envNum.verifyR "tok0" = some (JsVal.num 7) ∧
    envNum.findUser (JsVal.num 7) = some 7 ∧
    (refreshTokenImpl defaultConfig envNum storeLogin (some "tok0")).1
      = RefreshOutcome.invalidOrExpired ∧
    (refreshTokenImpl defaultConfig envNum storeLogin (some "tok0")).2.1 = [] := by
  decide

/-- C2: a refresh token issued by a valid login — i.e. one whose payload
carries the subject id as a number, as `generateTokens` always produces —
is usable at most once: whatever the first `refreshToken` call did (miss,
delete-on-mismatch, delete-on-missing-user), a second call presenting the same
token string is answered 403 `Invalid refresh token`. -/
theorem C2_refresh_single_use (cfg1 cfg2 : AuthConfig) (env1 env2 : RefreshEnv)
    (s : Store) (tok : String) (uid : Nat)
    (hdec : env1.verifyR tok = some (JsVal.num uid)) :
    (refreshTokenImpl cfg2 env2
        (refreshTokenImpl cfg1 env1 s (some tok)).2.1 (some tok)).1
      = RefreshOutcome.invalidToken := by
  cases hget : redisGet s (RKey.refresh tok) with
  | none =>
    simp [refreshTokenImpl, hget]
  | some v =>
    have hstep : (refreshTokenImpl cfg1 env1 s (some tok)).2.1
        = redisDel s (RKey.refresh tok) := by
      simp [refreshTokenImpl, hget, hdec, jsStrictEq]
    rw [hstep]
    simp [refreshTokenImpl, redisGet_redisDel_self]

/-- C2 witness: the login-issued token of user 7 is replay-rejected. -/
theorem C2_refresh_single_use_witness :
    (refreshTokenImpl defaultConfig envNum
        (refreshTokenImpl defaultConfig envNum storeLogin (some "tok0")).2.1
        (some "tok0")).1
      = RefreshOutcome.invalidToken :=
  C2_refresh_single_use defaultConfig defaultConfig envNum envNum storeLogin
    "tok0" 7 (by decide)

/-- C4: the claim asserts the cookie `maxAge` handed to the transport equals
the configured second-count times 1000.  On the code this is false:
`setSecureCookies` passes `this.JWT_EXPIRES_IN` and
`this.JWT_REFRESH_EXPIRES_IN` verbatim as `maxAge`, and `express` interprets
`maxAge` in milliseconds — so with the default configuration the access cookie
is given 900 (0.9 s) instead of 900000, and the refresh cookie 604800
(about 10 min) instead of 604800000. -/
theorem C4_cookie_max_age_raw_seconds :
    (∀ cfg : AuthConfig,
        (setSecureCookies cfg).1.maxAge = cfg.JWT_EXPIRES_IN ∧
        (setSecureCookies cfg).2.maxAge = cfg.JWT_REFRESH_EXPIRES_IN) ∧
    (setSecureCookies defaultConfig).1.maxAge
      ≠ defaultConfig.JWT_EXPIRES_IN * 1000 ∧
    (setSecureCookies defaultConfig).2.maxAge
      ≠ defaultConfig.JWT_REFRESH_EXPIRES_IN * 1000 := by
  refine ⟨fun cfg => ⟨rfl, rfl⟩, by decide, by decide⟩

/-- C5: the claim asserts that a login with an unknown email and a login with
a known email but wrong password are observably identical.  On the code this
is false: an unknown email is answered 404 with body message
`User could not be found`, a wrong password 401 with `Invalid credentials` —
an outside observer distinguishes the two runs (user enumeration). -/
theorem C5_login_outcomes_distinguishable :
    (loginImpl defaultConfig loginEnvNoUser [] "a@b.com" "pw").1
      = LoginOutcome.notFound ∧
    (loginImpl defaultConfig loginEnvWrongPw [] "a@b.com" "pw").1
      = LoginOutcome.invalidCredentials ∧
    loginStatus (loginImpl defaultConfig loginEnvNoUser [] "a@b.com" "pw").1 = 404 ∧
    loginStatus (loginImpl defaultConfig loginEnvWrongPw [] "a@b.com" "pw").1 = 401 ∧
    (loginStatus (loginImpl defaultConfig loginEnvNoUser [] "a@b.com" "pw").1,
      loginMessage (loginImpl defaultConfig loginEnvNoUser [] "a@b.com" "pw").1) ≠
    (loginStatus (loginImpl defaultConfig loginEnvWrongPw [] "a@b.com" "pw").1,
      loginMessage (loginImpl defaultConfig loginEnvWrongPw [] "a@b.com" "pw").1) := by
  decide

/-- C3: every `refreshToken` execution that reaches the rotation step emits
exactly the operation sequence `get old, del old, setex new-refresh,
setex new-csrf`: the delete of the presented token's entry strictly precedes
both writes, and after the prefix that ends with the delete — i.e. at the
point where either subsequent write could still fail — the old entry is
already gone, so the old token can no longer be replayed (fail closed). -/
theorem C3_rotation_delete_before_write (cfg : AuthConfig) (env : RefreshEnv)
    (s : Store) (tok csrf : String) (s2 : Store) (tr : List StoreOp)
    (h : refreshTokenImpl cfg env s (some tok) = (RefreshOutcome.ok csrf, s2, tr)) :
    ∃ uid : Nat,
      tr = [StoreOp.get (RKey.refresh tok), StoreOp.del (RKey.refresh tok),
            StoreOp.setex (RKey.refresh env.newRefreshToken)
              cfg.REFRESH_TOKEN_REDIS_TTL (toString uid),
            StoreOp.setex (RKey.csrf (toString uid)) cfg.CSRF_TOKEN_TTL csrf] ∧
      tr.take 2 = [StoreOp.get (RKey.refresh tok), StoreOp.del (RKey.refresh tok)] ∧
      (∀ op ∈ tr.drop 2, ∃ k2 t2 v2, op = StoreOp.setex k2 t2 v2) ∧
      redisGet (applyOps s (tr.take 2)) (RKey.refresh tok) = none := by
  cases hget : redisGet s (RKey.refresh tok) with
  | none => simp [refreshTokenImpl, hget] at h
  | some v =>
    cases hver : env.verifyR tok with
    | none => simp [refreshTokenImpl, hget, hver] at h
    | some d =>
      by_cases hj : jsStrictEq d (JsVal.str v) = true
      · cases hfind : env.findUser d with
        | none => simp [refreshTokenImpl, hget, hver, hj, hfind] at h
        | some uid =>
          simp only [refreshTokenImpl, hget, hver, hj, hfind, if_true,
            Prod.mk.injEq, RefreshOutcome.ok.injEq] at h
          obtain ⟨hc, hs, ht⟩ := h
          refine ⟨uid, ?_, ?_, ?_, ?_⟩
          · rw [← ht, hc]
          · rw [← ht]
            rfl
          · rw [← ht]
            intro op hop
            simp only [List.drop, List.mem_cons, List.not_mem_nil, or_false] at hop
            rcases hop with rfl | rfl
            · exact ⟨_, _, _, rfl⟩
            · exact ⟨_, _, _, rfl⟩
          · rw [← ht]
            simpa [applyOps, applyOp] using redisGet_redisDel_self s (RKey.refresh tok)
      · simp [refreshTokenImpl, hget, hver, hj] at h

/-- C3 witness: a concrete execution that reaches the rotation step (the
presented token's payload carries the subject id as the string `"7"`, so the
strict comparison with the stored string succeeds). -/
theorem C3_rotation_delete_before_write_witness :
    ∃ uid : Nat,
      (refreshTokenImpl defaultConfig envStrA storeLogin (some "tok0")).2.2
        = [StoreOp.get (RKey.refresh "tok0"), StoreOp.del (RKey.refresh "tok0"),
           StoreOp.setex (RKey.refresh envStrA.newRefreshToken)
             defaultConfig.REFRESH_TOKEN_REDIS_TTL (toString uid),
           StoreOp.setex (RKey.csrf (toString uid))
             defaultConfig.CSRF_TOKEN_TTL "csrfA"] ∧
      ((refreshTokenImpl defaultConfig envStrA storeLogin (some "tok0")).2.2).take 2
        = [StoreOp.get (RKey.refresh "tok0"), StoreOp.del (RKey.refresh "tok0")] ∧
      (∀ op ∈ ((refreshTokenImpl defaultConfig envStrA storeLogin (some "tok0")).2.2).drop 2,
        ∃ k2 t2 v2, op = StoreOp.setex k2 t2 v2) ∧
      redisGet
        (applyOps storeLogin
          (((refreshTokenImpl defaultConfig envStrA storeLogin (some "tok0")).2.2).take 2))
        (RKey.refresh "tok0") = none :=
  C3_rotation_delete_before_write defaultConfig envStrA storeLogin "tok0" "csrfA"
    (refreshTokenImpl defaultConfig envStrA storeLogin (some "tok0")).2.1
    (refreshTokenImpl defaultConfig envStrA storeLogin (some "tok0")).2.2
    (by decide)

/-- C6 counterexample: the claim asserts CSRF validation never errors for any
pair of strings, including strings of different lengths.  On the code this is
false: `verifyCSRFToken` calls `crypto.timingSafeEqual` on the raw buffers,
which throws `RangeError` when the byte lengths differ, and the middleware's
catch block turns that into a 500 — so a presented token of the wrong length
(here `"a"` against the stored `"bb"`) reaches the error branch. -/
theorem C6_counterexample_csrf_length_mismatch :
    verifyCSRFToken "a" "bb"
      = Except.error "RangeError: Input buffers must have the same byte length" ∧
    csrfProtectionImpl verifyAccessW storeCsrfBB "POST" (some "a") (some "at") none
      = CsrfOutcome.internalError :=
  ⟨rfl, rfl⟩

/-- C6 (amended): CSRF validation is total and boolean on presented tokens of
the same byte length as the stored one — the compare returns plain equality
and never errors, so a mere mismatch of equal-length tokens is answered 403,
not 500; the middleware's error branch is reached only when the lengths
differ. -/
theorem C6_csrf_total_on_equal_lengths (presented stored : String)
    (verifyA : String → Option JsVal) (s : Store) (method t : String) (u : JsVal)
    (h : presented.utf8ByteSize = stored.utf8ByteSize)
    (hm : method ∉ safeMethods) (hv : verifyA t = some u)
    (hg : getCSRFToken s (jsValText u) = some stored) :
    verifyCSRFToken presented stored = Except.ok (presented == stored) ∧
    csrfProtectionImpl verifyA s method (some presented) (some t) none =
      (if presented == stored then CsrfOutcome.admitted else CsrfOutcome.invalidCsrf) := by
  have h1 : verifyCSRFToken presented stored = Except.ok (presented == stored) := by
    simp [verifyCSRFToken, timingSafeEqual, h]
  refine ⟨h1, ?_⟩
  simp only [csrfProtectionImpl, if_neg hm, Option.orElse, hv, hg, h1]

/-- C6 witness: with the stored token `"bb"` and the equal-length presented
token `"aa"`, the middleware answers 403 (invalid CSRF token), not 500. -/
theorem C6_csrf_total_on_equal_lengths_witness :
    verifyCSRFToken "aa" "bb" = Except.ok ("aa" == "bb") ∧
    csrfProtectionImpl verifyAccessW storeCsrfBB "POST" (some "aa") (some "at") none =
      (if "aa" == "bb" then CsrfOutcome.admitted else CsrfOutcome.invalidCsrf) :=
  C6_csrf_total_on_equal_lengths "aa" "bb" verifyAccessW storeCsrfBB "POST" "at"
    (JsVal.num 1) (by decide) (by decide) (by decide) (by decide)

/-- The refresh handler preserves the TTL invariant: every branch either
leaves the store alone, deletes, or writes via `setex`. -/
theorem ttlInvB_refreshTokenImpl (cfg : AuthConfig) (env : RefreshEnv)
    (s : Store) (tok : Option String) (h : ttlInvB s = true) :
    ttlInvB (refreshTokenImpl cfg env s tok).2.1 = true := by
  cases tok with
  | none => exact h
  | some t =>
    cases hget : redisGet s (RKey.refresh t) with
    | none => simpa [refreshTokenImpl, hget] using h
    | some v =>
      cases hver : env.verifyR t with
      | none =>
        simpa [refreshTokenImpl, hget, hver] using ttlInvB_redisDel _ h
      | some d =>
        by_cases hj : jsStrictEq d (JsVal.str v) = true
        · cases hfind : env.findUser d with
          | none =>
            simpa [refreshTokenImpl, hget, hver, hj, hfind] using
              ttlInvB_redisDel _ h
          | some uid =>
            simp only [refreshTokenImpl, hget, hver, hj, hfind, if_true]
            exact ttlInvB_storeCSRFToken _ _ _
              (ttlInvB_storeRefreshToken _ _ _ (ttlInvB_redisDel _ h))
        · simpa [refreshTokenImpl, hget, hver, hj] using ttlInvB_redisDel _ h

/-- C7: every entry point that touches session entries — register, login,
refresh, CSRF issuance, logout, logout-all — writes refresh and CSRF entries
exclusively through `setex` with the configured TTLs, so the invariant "every
session entry in the store carries a TTL" is preserved by every operation. -/
theorem C7_session_writes_carry_ttl (cfg : AuthConfig) (s : Store)
    (a : AuthAction) (h : ttlInvB s = true) :
    ttlInvB (applyAuthAction cfg s a) = true := by
  cases a with
  | register userId rtok ctok =>
    exact ttlInvB_storeCSRFToken _ _ _ (ttlInvB_storeRefreshToken _ _ _ h)
  | login env email pw =>
    cases hf : env.findByEmail email with
    | none => simpa [applyAuthAction, loginImpl, hf] using h
    | some user =>
      by_cases hp : env.checkPw pw user.passwordHash = true
      · simp only [applyAuthAction, loginImpl, hf, hp, if_true]
        exact ttlInvB_storeCSRFToken _ _ _ (ttlInvB_storeRefreshToken _ _ _ h)
      · simpa [applyAuthAction, loginImpl, hf, hp] using h
  | refresh env tok => exact ttlInvB_refreshTokenImpl _ _ _ _ h
  | issueCsrf userId ctok => exact ttlInvB_storeCSRFToken _ _ _ h
  | logout tok =>
    cases tok with
    | none => exact h
    | some t =>
      cases hget : getRefreshTokenUserId s t with
      | none => simpa [applyAuthAction, logoutImpl, hget] using h
      | some uid =>
        simp only [applyAuthAction, logoutImpl, hget]
        exact ttlInvB_redisDel _ (ttlInvB_redisDel _ h)
  | logoutAll userId =>
    exact ttlInvB_redisDel _ (ttlInvB_delLoop h)

/-- C7 witness: the invariant holds after a logout-all run on the post-login
store. -/
theorem C7_session_writes_carry_ttl_witness :
    ttlInvB (applyAuthAction defaultConfig storeTwoUsers (AuthAction.logoutAll 1))
      = true :=
  C7_session_writes_carry_ttl defaultConfig storeTwoUsers (AuthAction.logoutAll 1)
    (by decide)

/-- C8: `logout` is total and idempotent: it always answers 200
`User logged out successfully`; when the presented refresh token has no store
entry it leaves the store untouched; and running it twice with the same token
gives exactly the same final store and the same outcome as running it once. -/
theorem C8_logout_idempotent_total (s : Store) (tok : Option String) :
    (logoutImpl s tok).1 = ⟨200, "User logged out successfully"⟩ ∧
    ((∀ t, tok = some t → getRefreshTokenUserId s t = none) →
      (logoutImpl s tok).2 = s) ∧
    logoutImpl (logoutImpl s tok).2 tok = logoutImpl s tok := by
  cases tok with
  | none => exact ⟨rfl, fun _ => rfl, rfl⟩
  | some t =>
    cases hget : getRefreshTokenUserId s t with
    | none =>
      refine ⟨?_, fun _ => ?_, ?_⟩ <;> simp [logoutImpl, hget]
    | some uid =>
      refine ⟨by simp [logoutImpl, hget], ?_, ?_⟩
      · intro hI
        rw [hI t rfl] at hget
        cases hget
      · have h2 : getRefreshTokenUserId
            (deleteCSRFToken (deleteRefreshToken s t) uid) t = none :=
          redisGet_redisDel_none _ _ _ (redisGet_redisDel_self s _)
        simp [logoutImpl, hget, h2]

/-- C8 witness: logging out with a token that has no store entry. -/
theorem C8_logout_idempotent_total_witness :
    (logoutImpl storeTwoUsers (some "zzz")).1
      = ⟨200, "User logged out successfully"⟩ ∧
    ((∀ t, (some "zzz" : Option String) = some t →
        getRefreshTokenUserId storeTwoUsers t = none) →
      (logoutImpl storeTwoUsers (some "zzz")).2 = storeTwoUsers) ∧
    logoutImpl (logoutImpl storeTwoUsers (some "zzz")).2 (some "zzz")
      = logoutImpl storeTwoUsers (some "zzz") :=
  C8_logout_idempotent_total storeTwoUsers (some "zzz")

/-- C9: the claim asserts that of two concurrent `refreshToken` calls
presenting the same token, exactly one succeeds in every interleaving.  On the
code this is false: the store-presence check (`get`) and the rotation delete
are separate atomic operations with no transaction around them, so in the
schedule where both calls perform their `get` before either deletes, both
calls observe the entry, both pass the checks, and both complete a rotation —
the final store even holds both freshly minted refresh entries. -/
theorem C9_concurrent_refreshes_both_succeed :
    race9.1.out = some (RefreshOutcome.ok "csrfA") ∧
    race9.2.1.out = some (RefreshOutcome.ok "csrfB") ∧
    redisGet race9.2.2 (RKey.refresh "refA") = some "7" ∧
    redisGet race9.2.2 (RKey.refresh "refB") = some "7" := by
  decide

/-- C10: `deleteAllUserRefreshTokens`, as `logoutAll` uses it, revokes exactly
the target subject's sessions: in a well-formed store no refresh entry bound
to that subject survives, while every refresh entry bound to a different
subject and every CSRF entry of a different subject are left in place. -/
theorem C10_logout_all_frame (s : Store) (userId : Nat) (hnd : keysNodup s) :
    (∀ e ∈ logoutAllStore s userId,
      isRefreshKey e.key = true → e.value ≠ toString userId) ∧
    (∀ e ∈ s, isRefreshKey e.key = true → e.value ≠ toString userId →
      e ∈ logoutAllStore s userId) ∧
    (∀ e ∈ s, ∀ u2, e.key = RKey.csrf u2 → u2 ≠ toString userId →
      e ∈ logoutAllStore s userId) := by
  refine ⟨?_, ?_, ?_⟩
  · intro e he hkey hval
    have heD : e ∈ deleteAllUserRefreshTokens s (toString userId) :=
      (mem_redisDel.mp he).1
    have heS : e ∈ s := mem_of_mem_delLoop heD
    exact not_mem_delLoop_deleted hnd heD hval (mem_matching_of_refresh heS hkey)
  · intro e he hkey hval
    have heD : e ∈ deleteAllUserRefreshTokens s (toString userId) :=
      mem_delLoop_of_value_ne hnd he hval
    refine mem_redisDel.mpr ⟨heD, ?_⟩
    intro hk
    rw [hk] at hkey
    exact Bool.false_ne_true hkey
  · intro e he u2 hk hne
    have hkm : e.key ∉ matchingRefreshKeys s := by
      intro hmem
      have h1 := isRefreshKey_of_mem_matching hmem
      rw [hk] at h1
      exact Bool.false_ne_true h1
    have heD : e ∈ deleteAllUserRefreshTokens s (toString userId) :=
      mem_delLoop_of_key_notin he hkm
    refine mem_redisDel.mpr ⟨heD, ?_⟩
    rw [hk]
    intro hcontra
    exact hne (RKey.csrf.inj hcontra)

/-- C10 witness: on the two-user store, logout-all of user 1 removes both of
user 1's refresh entries and keeps user 2's refresh and CSRF entries. -/
theorem C10_logout_all_frame_witness :
    (∀ e ∈ logoutAllStore storeTwoUsers 1,
      isRefreshKey e.key = true → e.value ≠ toString 1) ∧
    (∀ e ∈ storeTwoUsers, isRefreshKey e.key = true → e.value ≠ toString 1 →
      e ∈ logoutAllStore storeTwoUsers 1) ∧
    (∀ e ∈ storeTwoUsers, ∀ u2, e.key = RKey.csrf u2 → u2 ≠ toString 1 →
      e ∈ logoutAllStore storeTwoUsers 1) :=
  C10_logout_all_frame storeTwoUsers 1 (by unfold keysNodup; decide)

end SchoolRegistry
